import Mathlib

/-!
Verification of the Kaia assistant core (ollama_rag_agent repository).

Shallow embedding of:
- the command safety gate of `KaiaCLI.generate_command` (src/kaia_cli.py),
- `confirm_and_execute_command` and `generate_action_plan` with its keyword
  fallback (src/llamaindex_ollama_rag.py),
- the dispatcher branch of the main loop and its exception boundary
  (src/llamaindex_ollama_rag.py),
- `handle_memory_storage` / `handle_data_retrieval` and the preference store
  (src/database_utils.py),
- `KaiaCLI.execute_command` with its `shlex.split`-based tokenization
  (src/kaia_cli.py).

Python strings are modelled as Lean `String`; Python string methods used by
the code (`in`, `startswith`, `split(sep, 1)`, `strip`, `lower`, `title`,
`replace`) are given explicit executable models below.
-/

namespace KaiaSpec

/-- Model of the Python substring test `needle in haystack`, on char lists:
true iff `needle` occurs contiguously in the list. -/
def containsAux (needle : List Char) : List Char → Bool
  | [] => needle.isEmpty
  | c :: rest => needle.isPrefixOf (c :: rest) || containsAux needle rest

/-- Python `needle in haystack` for strings. -/
def pyContains (haystack needle : String) : Bool :=
  containsAux needle.toList haystack.toList

/-- Helper for `pySplitOnce`: split a char list at the first occurrence of
`sep`, returning the parts before and after it, or `none` when absent. -/
def splitOnceAux (sep : List Char) : List Char → Option (List Char × List Char)
  | [] => if sep.isEmpty then some ([], []) else none
  | c :: rest =>
    if sep.isPrefixOf (c :: rest) then some ([], (c :: rest).drop sep.length)
    else
      match splitOnceAux sep rest with
      | some (pre, post) => some (c :: pre, post)
      | none => none

/-- Model of Python `s.split(sep, 1)`: `some (before, after)` at the first
occurrence of `sep`, else `none` (where Python would return a 1-element list
and a `[1]` subscript would raise `IndexError`). -/
def pySplitOnce (s sep : String) : Option (String × String) :=
  match splitOnceAux sep.toList s.toList with
  | some (pre, post) => some (⟨pre⟩, ⟨post⟩)
  | none => none

/-- Python `s.startswith(pre)`. -/
def pyStartsWith (s pre : String) : Bool :=
  pre.toList.isPrefixOf s.toList

/-- Python `s.lower()` (ASCII case mapping, which covers every string the
code applies it to). -/
def pyLower (s : String) : String := ⟨s.toList.map Char.toLower⟩

/-- The whitespace characters stripped by Python `str.strip()`. -/
def isPyWhitespace (c : Char) : Bool :=
  c = ' ' || c = '\t' || c = '\n' || c = '\r' || c = '\x0b' || c = '\x0c'

/-- Python `s.strip()`: drop leading and trailing whitespace. -/
def pyStrip (s : String) : String :=
  ⟨((s.toList.dropWhile isPyWhitespace).reverse.dropWhile isPyWhitespace).reverse⟩

/-- Helper for `pyReplace`: replace every non-overlapping occurrence of `old`
(leftmost first), as Python `str.replace` does. -/
def replaceAux (old new : List Char) : Nat → List Char → List Char
  | 0, l => l
  | _ + 1, [] => []
  | fuel + 1, c :: rest =>
    if old.isPrefixOf (c :: rest) && !old.isEmpty then
      new ++ replaceAux old new fuel (rest.drop (old.length - 1))
    else
      c :: replaceAux old new fuel rest

/-- Python `s.replace(old, new)` (all occurrences; `old` is nonempty at every
use site in the code).  The fuel argument equals the input length, which
bounds the number of steps, so it never runs out. -/
def pyReplace (s old new : String) : String :=
  ⟨replaceAux old.toList new.toList s.toList.length s.toList⟩

/-- Helper for `pyTitle`: the Bool records whether the previous character was
alphabetic. -/
def titleAux : Bool → List Char → List Char
  | _, [] => []
  | prevAlpha, c :: rest =>
    (if c.isAlpha then (if prevAlpha then c.toLower else c.toUpper) else c)
      :: titleAux c.isAlpha rest

/-- Model of Python `s.title()`: uppercase each letter that follows a
non-letter, lowercase the other letters. -/
def pyTitle (s : String) : String := ⟨titleAux false s.toList⟩

/-- `SAFE_COMMAND_ALLOWLIST` from src/config.py. -/
def SAFE_COMMAND_ALLOWLIST : List String :=
  ["ls", "cd", "pwd", "echo", "cat", "date", "df", "ps", "find", "grep",
   "pacman", "systemctl", "ip", "nmcli", "plasmashell", "kquitapp5",
   "kstart5", "systemsettings5", "mount", "umount", "lsusb", "lscpu",
   "free", "lsblk", "journalctl", "reboot", "poweroff"]

/-- `unsafe_operators` of `KaiaCLI.generate_command` (src/kaia_cli.py line 374). -/
def UNSAFE_OPERATORS : List String := ["&&", ";", "||", "`", "\n"]

/-- The safety-gate tail of `KaiaCLI.generate_command`
(src/kaia_cli.py lines 371-382), as a function of the cleaned command string:
first the allow-list prefix check (which accepts immediately), then the
unsafe-operator scan, then the emptiness check.  Returns the pair
`(command, error)` exactly as the Python function does. -/
def generate_command_gate (clean_command : String) : String × Option String :=
  if SAFE_COMMAND_ALLOWLIST.any (fun cmd => pyStartsWith clean_command cmd) then
    (clean_command, none)
  else if UNSAFE_OPERATORS.any (fun op => pyContains clean_command op) then
    ("", some "ERROR: Generated command contained unsafe operators.")
  else if clean_command = "" then
    ("", some "ERROR: Empty command generated")
  else
    (clean_command, none)

/-- The blocked-operator list of `confirm_and_execute_command`
(src/llamaindex_ollama_rag.py line 244). -/
def BLOCKED_OPERATORS : List String := [";", "&&", "||", "`", "$(", ">", "<", "|"]

/-- `confirm_and_execute_command` (src/llamaindex_ollama_rag.py lines 243-261).
`run` stands for the `subprocess.run(command, shell=True, ...)` call and
returns the pair (stdout, stderr); `user_choice` is the line read by
`input`.  The blocked-operator check precedes both the confirmation and any
execution, so on a blocked command the result does not depend on either. -/
def confirm_and_execute_command (command : String) (user_choice : String)
    (run : String → String × String) : Bool × String :=
  if BLOCKED_OPERATORS.any (fun b => pyContains command b) then
    (false, "Dangerous command detected - aborting.")
  else if pyStrip (pyLower user_choice) = "y" then
    ((true, pyStrip (run command).1))
  else
    (false, "Command execution cancelled.")

/-- JSON values as produced by Python `json.loads` (numbers collapsed to
`Int`, which is irrelevant to every claim below). -/
inductive Json where
  | null
  | bool (b : Bool)
  | num (n : Int)
  | str (s : String)
  | arr (elems : List Json)
  | obj (fields : List (String × Json))
deriving Repr

/-- Python `dict.get(key)` on a parsed JSON object (keys are unique in a
Python dict, so first binding wins). -/
def jsonGet (fields : List (String × Json)) (key : String) : Option Json :=
  match fields.find? (fun p => p.1 == key) with
  | some p => some p.2
  | none => none

/-- Python `j == "s"` for a JSON value against a string literal: only string
values compare equal to strings. -/
def jsonEqStr (j : Json) (s : String) : Bool :=
  match j with
  | .str t => t == s
  | _ => false

/-- First fallback keyword list of `generate_action_plan`
(src/llamaindex_ollama_rag.py line 344): matches map to `"command"`. -/
def COMMAND_FALLBACK_KEYWORDS : List String :=
  ["list", "find", "search", "show files", "check processes", "disk usage",
   "memory usage", "cpu usage", "gpu usage"]

/-- Second fallback keyword list of `generate_action_plan` (line 346):
matches map to `"store_data"`. -/
def STORE_FALLBACK_KEYWORDS : List String :=
  ["remember", "my name is", "i like"]

/-- Third fallback keyword list of `generate_action_plan` (line 348):
matches map to `"chat"`. -/
def CHAT_FALLBACK_KEYWORDS : List String :=
  ["what is", "who is", "tell me about"]

/-- The `except` branch of `generate_action_plan`
(src/llamaindex_ollama_rag.py lines 341-350): ordered keyword matching on
the lower-cased input, first list wins; the returned content is the
original (not lower-cased) input. -/
def fallback_action_plan (user_input : String) : Json :=
  if COMMAND_FALLBACK_KEYWORDS.any (fun k => pyContains (pyLower user_input) k) then
    .obj [("action", .str "command"), ("content", .str user_input)]
  else if STORE_FALLBACK_KEYWORDS.any (fun k => pyContains (pyLower user_input) k) then
    .obj [("action", .str "store_data"), ("content", .str user_input)]
  else if CHAT_FALLBACK_KEYWORDS.any (fun k => pyContains (pyLower user_input) k) then
    .obj [("action", .str "chat"), ("content", .str user_input)]
  else
    .obj [("action", .str "chat"), ("content", .str user_input)]

/-- `generate_action_plan` (src/llamaindex_ollama_rag.py lines 263-350).
The `backend` argument abstracts the try-block up to `json.loads`:
`.ok j` means the HTTP call succeeded, returned 2xx, and the message content
parsed as the JSON value `j`; `.error e` covers every exception in the try
block (network or timeout error, non-2xx raised by `raise_for_status`,
missing keys in the response, or a JSON parse failure).  On success the
parsed value is returned as-is, with no shape validation; on failure the
keyword fallback runs. -/
def generate_action_plan (backend : Except String Json) (user_input : String) : Json :=
  match backend with
  | .ok parsed => parsed
  | .error _ => fallback_action_plan user_input

/-- The action taxonomy announced by the classifier system prompt in
`generate_action_plan` (src/llamaindex_ollama_rag.py line 266). -/
def KNOWN_ACTION_TAGS : List String :=
  ["command", "chat", "sql", "retrieve_data", "store_data", "system_status",
   "get_persona_content"]

/-- The claim-side notion of a valid `ActionPlan`: a JSON mapping whose
`action` key holds one of the known action tags. -/
def isValidActionPlan (j : Json) : Bool :=
  match j with
  | .obj fields =>
    match jsonGet fields "action" with
    | some (.str a) => KNOWN_ACTION_TAGS.contains a
    | _ => false
  | _ => false

/-- Modelled from the spec: the fallback keyword classifier as section 4.1
of the spec (and claim C3) describes it, with the spec's ordered keyword
sets — `knowledge_query` first, then `command`, `retrieve_data`,
`system_status`, `run_script`, else `chat`.  This definition follows the
spec's words and exists only to be compared with `fallback_action_plan`,
which embeds the source. -/
def spec_fallback_action (s : String) : String :=
  if ["what is", "who is", "explain", "tell me about", "according to",
      "summarize", "synopsis of", "list all the books",
      "pull text from"].any (fun k => pyContains (pyLower s) k) then
    "knowledge_query"
  else if ["list files", "show contents", "run command", "ls ",
      "cd "].any (fun k => pyContains (pyLower s) k) then
    "command"
  else if ["list my facts", "list history", "show interaction history",
      "what do you know about me", "my preferences"].any
      (fun k => pyContains (pyLower s) k) then
    "retrieve_data"
  else if ["status", "how is my computer doing", "system info",
      "show system status", "kaia status"].any
      (fun k => pyContains (pyLower s) k) then
    "system_status"
  else if (pyContains (pyLower s) "run " || pyContains (pyLower s) "execute ") &&
      (pyContains (pyLower s) ".sh" || pyContains (pyLower s) ".py") then
    "run_script"
  else
    "chat"

/-- The handlers of the main-loop dispatch (src/llamaindex_ollama_rag.py
lines 529-762), in branch order; `chat` is the trailing `else`. -/
inductive Handler where
  | store_data
  | command
  | system_status
  | sql
  | retrieve_data
  | get_persona_content
  | chat
deriving DecidableEq, Repr

/-- `action = plan.get("action", "chat")` (src/llamaindex_ollama_rag.py
line 526). -/
def plan_action (plan : List (String × Json)) : Json :=
  (jsonGet plan "action").getD (.str "chat")

/-- `content = plan.get("content", query)` (src/llamaindex_ollama_rag.py
line 527). -/
def plan_content (plan : List (String × Json)) (query : String) : Json :=
  (jsonGet plan "content").getD (.str query)

/-- The `if/elif/else` chain on `action` in the main loop
(src/llamaindex_ollama_rag.py lines 529-723): branch order is `store_data`,
`command`, `system_status`, `sql` (guarded by SQL availability),
`retrieve_data`, `get_persona_content`, and a trailing `else` that runs the
chat handler. -/
def dispatch_branch (action : Json) (sqlAvailable : Bool) : Handler :=
  if jsonEqStr action "store_data" then .store_data
  else if jsonEqStr action "command" then .command
  else if jsonEqStr action "system_status" then .system_status
  else if jsonEqStr action "sql" && sqlAvailable then .sql
  else if jsonEqStr action "retrieve_data" then .retrieve_data
  else if jsonEqStr action "get_persona_content" then .get_persona_content
  else .chat

/-- One dispatch step of the main loop: extract the action and content from
the planner result (a parsed JSON mapping) and select the handler; the
second component is the content payload every handler (including chat via
`stream_chat(content)`) receives. -/
def dispatch_turn (plan : List (String × Json)) (query : String)
    (sqlAvailable : Bool) : Handler × Json :=
  (dispatch_branch (plan_action plan) sqlAvailable, plan_content plan query)

/-- A row of the `user_preferences` table (src/database_utils.py lines
16-24), restricted to the columns the code reads. -/
structure PrefRow where
  user_id : String
  preference_key : String
  preference_value : String
deriving DecidableEq, Repr

/-- A row of the `facts` table (src/database_utils.py lines 26-34); `time`
is the formatted timestamp when the row holds a datetime (`none` models a
NULL, rendered as "Unknown time"). -/
structure FactRow where
  fact_id : Nat
  fact_text : String
  source : String
  time : Option String
deriving DecidableEq, Repr

/-- The persistent state the claims touch: the `facts`, `user_preferences`
and `kaia_persona_details` tables, each in insertion order, plus the current
formatted timestamp `now` that the DB default attaches to inserts. -/
structure DBState where
  now : String
  facts : List FactRow
  prefs : List PrefRow
  personaDetails : List (String × String)
deriving DecidableEq, Repr

/-- A database with no stored rows. -/
def emptyDB : DBState := ⟨"2025-01-01 00:00:00", [], [], []⟩

/-- The unique indexes of the `user_preferences` table as its schema
declares them (src/database_utils.py lines 16-24): only the
`preference_id` primary key.  Nothing in the schema makes
`(user_id, preference_key)` unique (`unique=True` appears only on
`tools.tool_name` and `kaia_persona_details.detail_key`). -/
def USER_PREFERENCES_UNIQUE_INDEXES : List (List String) :=
  [["preference_id"]]

/-- PostgreSQL accepts `INSERT ... ON CONFLICT (cols) DO UPDATE` only when
a unique or exclusion constraint matches the conflict target's column
list; otherwise the statement itself raises ("there is no unique or
exclusion constraint matching the ON CONFLICT specification"). -/
def onConflictTargetMatches (uniqueIndexes : List (List String))
    (target : List String) : Bool :=
  uniqueIndexes.any (fun idx => idx == target)

/-- `set_user_preference` (src/database_utils.py lines 169-192): an
`INSERT ... ON CONFLICT (user_id, preference_key) DO UPDATE`.  The then
branch is the upsert semantics the statement would have if the schema had a
matching unique constraint; since `user_preferences` declares none on that
column pair, PostgreSQL rejects the statement, the `except` branch rolls
back, and the function returns False with the table unchanged. -/
def set_user_preference (user_id preference_key preference_value : String)
    (st : DBState) : Bool × DBState :=
  if onConflictTargetMatches USER_PREFERENCES_UNIQUE_INDEXES ["user_id", "preference_key"] then
    if st.prefs.any (fun r => r.user_id == user_id && r.preference_key == preference_key) then
      (true, { st with prefs := st.prefs.map (fun r =>
          if r.user_id == user_id && r.preference_key == preference_key then
            { r with preference_value := preference_value }
          else r) })
    else
      (true, { st with prefs := st.prefs ++ [⟨user_id, preference_key, preference_value⟩] })
  else
    (false, st)

/-- `store_fact` (src/database_utils.py lines 150-167): insert a fact row
with source `"user_input"` and the serial next id; the DB default stamps the
current time. -/
def store_fact (fact_text : String) (st : DBState) : DBState :=
  { st with facts := st.facts ++ [⟨st.facts.length + 1, fact_text, "user_input", some st.now⟩] }

/-- Insert a preference row into a list sorted by `preference_key`. -/
def insertByKey (r : PrefRow) : List PrefRow → List PrefRow
  | [] => [r]
  | x :: xs =>
    if r.preference_key < x.preference_key then r :: x :: xs
    else x :: insertByKey r xs

/-- Sort preference rows by `preference_key` (the `ORDER BY` of
`get_all_user_preferences`). -/
def sortByKey : List PrefRow → List PrefRow
  | [] => []
  | x :: xs => insertByKey x (sortByKey xs)

/-- `get_all_user_preferences` (src/database_utils.py lines 239-251): the
rows of one user, ordered by `preference_key`. -/
def get_all_user_preferences (user_id : String) (st : DBState) : List PrefRow :=
  sortByKey (st.prefs.filter (fun r => r.user_id == user_id))

/-- `get_all_facts` (src/database_utils.py lines 211-221): all facts ordered
by timestamp descending; insertion order is timestamp-ascending, so this is
the reversed list. -/
def get_all_facts (st : DBState) : List FactRow :=
  st.facts.reverse

/-- `get_persona_detail` (src/database_utils.py lines 196-209): the
`detail_value` stored under `detail_key`, if any. -/
def get_persona_detail (detail_key : String) (st : DBState) : Option String :=
  match st.personaDetails.find? (fun p => p.1 == detail_key) with
  | some p => some p.2
  | none => none

/-- The `preference_patterns` dict of `handle_memory_storage`
(src/database_utils.py lines 280-285), in insertion order. -/
def PREFERENCE_PATTERNS : List (String × String) :=
  [("favorite color is", "favorite_color"),
   ("default editor is", "default_editor"),
   ("preferred output method is", "output_method"),
   ("my pet\x27s name is", "pet_name")]

/-- The preference-pattern loop of `handle_memory_storage`
(src/database_utils.py lines 287-296): first phrase contained in the
lower-cased query wins; the value is the text after the phrase in the
ORIGINAL query (`query.split(phrase, 1)[1]`), which raises `IndexError`
when the phrase occurs in the lower-cased query but not in the original.
The Bool returned by `set_user_preference` is discarded (line 291 ignores
it) and the loop reports True anyway. -/
def memoryPrefLoop (query query_lower : String) (st : DBState) :
    List (String × String) → Except String (Bool × DBState)
  | [] => .ok (false, st)
  | (phrase, key) :: rest =>
    if pyContains query_lower phrase then
      match pySplitOnce query phrase with
      | none => .error "IndexError: list index out of range"
      | some (_, tail) =>
        let value := pyStrip tail
        if value ≠ "" then
          .ok (true, (set_user_preference "default_user" key value st).2)
        else
          .ok (false, st)
    else memoryPrefLoop query query_lower st rest

/-- `handle_memory_storage` (src/database_utils.py lines 255-298).  The
result is `.ok (handled, newState)` mirroring the boolean return plus the
database effect; `.error` models the uncaught `IndexError` that
`query.split(..., 1)[1]` raises when the pattern matches the lower-cased
query but not the original one. -/
def handle_memory_storage (query : String) (st : DBState) :
    Except String (Bool × DBState) :=
  let query_lower := pyStrip (pyLower query)
  if pyStartsWith query_lower "remember that" then
    match pySplitOnce query "remember that" with
    | none => .error "IndexError: list index out of range"
    | some (_, tail) =>
      let fact_text := pyStrip tail
      if fact_text ≠ "" then .ok (true, store_fact fact_text st)
      else .ok (false, st)
  else
    memoryPrefLoop query query_lower st PREFERENCE_PATTERNS

/-- An element of the `data` list returned by `handle_data_retrieval`:
either a pre-formatted display line or the `{'key': ..., 'value': ...}`
dict of the single-persona-detail branch. -/
inductive RetItem where
  | line (s : String)
  | kv (key value : String)
deriving DecidableEq, Repr

/-- The `{'message', 'data', 'response_type'}` dict returned by
`handle_data_retrieval`. -/
structure RetrievalResult where
  message : String
  data : List RetItem
  response_type : String
deriving DecidableEq, Repr

/-- Fact display formatting of the facts branch of `handle_data_retrieval`
(src/database_utils.py lines 322-328). -/
def formatFact (f : FactRow) : String :=
  "ID: " ++ toString f.fact_id ++ ", Fact: \"" ++ f.fact_text ++ "\", Source: "
    ++ f.source ++ ", Time: " ++ (match f.time with | some t => t | none => "Unknown time")

/-- Preference display formatting of the preferences branch
(src/database_utils.py line 347). -/
def formatPref (r : PrefRow) : String :=
  pyTitle (pyReplace r.preference_key "_" " ") ++ ": " ++ r.preference_value

/-- The `persona_detail_keywords` dict (src/database_utils.py lines
363-372), in insertion order. -/
def PERSONA_DETAIL_KEYWORDS : List (String × String) :=
  [("my pet\x27s name", "pet_name"),
   ("favorite music genre", "favorite_music_genre"),
   ("core philosophy", "core_philosophy"),
   ("sarcasm level", "sarcasm_level"),
   ("favorite operating system", "favorite_operating_system"),
   ("cpu type", "cpu_type"),
   ("motherboard model", "motherboard_model"),
   ("my persona details", "all_persona_details")]

/-- Insert a persona-detail pair into a list sorted by `detail_key`. -/
def insertDetail (d : String × String) : List (String × String) → List (String × String)
  | [] => [d]
  | x :: xs => if d.1 < x.1 then d :: x :: xs else x :: insertDetail d xs

/-- Sort persona details by `detail_key` (the `ORDER BY` of the
all-persona-details branch). -/
def sortDetails : List (String × String) → List (String × String)
  | [] => []
  | x :: xs => insertDetail x (sortDetails xs)

/-- The persona-keyword loop of `handle_data_retrieval`
(src/database_utils.py lines 374-410): first phrase contained in the
lower-cased query wins; an empty stored value is falsy in Python, hence the
not-found branch. -/
def personaLoop (query_lower : String) (st : DBState) :
    List (String × String) → Option RetrievalResult
  | [] => none
  | (phrase, key) :: rest =>
    if pyContains query_lower phrase then
      if key == "all_persona_details" then
        if sortDetails st.personaDetails ≠ [] then
          some ⟨"Here are my persona details:",
                (sortDetails st.personaDetails).map
                  (fun d => .line (pyTitle (pyReplace d.1 "_" " ") ++ ": " ++ d.2)),
                "persona_details_retrieved"⟩
        else
          some ⟨"No persona details are currently stored.", [], "persona_details_retrieved"⟩
      else
        match get_persona_detail key st with
        | some value =>
          if value ≠ "" then
            some ⟨"My " ++ phrase ++ " is " ++ value ++ ".", [.kv key value],
                  "persona_detail_retrieved"⟩
          else
            some ⟨"I don\x27t have information about my " ++ phrase ++ " stored.",
                  [], "persona_detail_not_found"⟩
        | none =>
          some ⟨"I don\x27t have information about my " ++ phrase ++ " stored.",
                [], "persona_detail_not_found"⟩
    else personaLoop query_lower st rest

/-- `handle_data_retrieval` (src/database_utils.py lines 301-418): the facts
branch, then the preferences branch, then the persona-keyword loop, then the
default failure response. -/
def handle_data_retrieval (query : String) (st : DBState) : RetrievalResult :=
  if pyContains (pyLower query) "all facts" || pyContains (pyLower query) "what facts"
      || pyContains (pyLower query) "list all facts" then
    if get_all_facts st ≠ [] then
      ⟨"Here are the stored facts:",
       (get_all_facts st).map (fun f => .line (formatFact f)), "facts_retrieved"⟩
    else
      ⟨"No facts are currently stored.", [], "facts_retrieved"⟩
  else if pyContains (pyLower query) "preferences" || pyContains (pyLower query) "my preferences"
      || pyContains (pyLower query) "user preferences" then
    if get_all_user_preferences "default_user" st ≠ [] then
      ⟨"Here are your stored preferences:",
       (get_all_user_preferences "default_user" st).map (fun r => .line (formatPref r)),
       "preferences_retrieved"⟩
    else
      ⟨"No preferences are currently stored.", [], "preferences_retrieved"⟩
  else
    match personaLoop (pyLower query) st PERSONA_DETAIL_KEYWORDS with
    | some r => r
    | none =>
      ⟨"I couldn\x27t determine what specific data you wanted to retrieve.",
       [], "data_retrieval_failed"⟩

/-- The six response types `handle_data_retrieval` can return. -/
def RETRIEVAL_RESPONSE_TYPES : List String :=
  ["facts_retrieved", "preferences_retrieved", "persona_details_retrieved",
   "persona_detail_retrieved", "persona_detail_not_found", "data_retrieval_failed"]

/-- Whether a data-list item mentions `needle` in its displayed text. -/
def retItemMentions (item : RetItem) (needle : String) : Bool :=
  match item with
  | .line s => pyContains s needle
  | .kv k v => pyContains k needle || pyContains v needle

/-- What an iteration of the main loop body does after the query is read and
the exit check has passed (src/llamaindex_ollama_rag.py lines 395-775):
it completes with a `(response, response_type)` pair, raises an exception
(any `Exception`, from any handler), or is hit by a `KeyboardInterrupt`. -/
inductive TurnBody where
  | ok (resp rtype : String)
  | exc (msg : String)
  | interrupt
deriving DecidableEq, Repr

/-- The `(user_id, query, response, response_type)` tuple handed to
`database_utils.log_interaction` (src/llamaindex_ollama_rag.py lines
767-773 and 786-792). -/
structure LogEntry where
  user_id : String
  user_query : String
  kaia_response : String
  response_type : String
deriving DecidableEq, Repr

/-- One iteration of the `while True` main loop
(src/llamaindex_ollama_rag.py lines 380-794).  The first component is true
iff the loop terminates (`break`); the second is the entry handed to the
logging collaborator, if any.  Control flow mirrors the source: the
stripped query is checked against `exit`/`quit` first (line 385), an empty
query just continues (line 388), a `KeyboardInterrupt` breaks with no log
(lines 777-779), and any other exception is converted to a `system_error`
response whose logged message is `"System error: " + str(e)[:200]`
(lines 780-792) after which the loop continues. -/
def main_loop_step (user_id raw_query : String) (body : TurnBody) :
    Bool × Option LogEntry :=
  if pyLower (pyStrip raw_query) == "exit" || pyLower (pyStrip raw_query) == "quit" then
    (true, none)
  else if pyStrip raw_query == "" then (false, none)
  else
    match body with
    | .ok resp rtype => (false, some ⟨user_id, pyStrip raw_query, resp, rtype⟩)
    | .exc msg =>
      (false, some ⟨user_id, pyStrip raw_query,
                    "System error: " ++ (⟨msg.toList.take 200⟩ : String), "system_error"⟩)
    | .interrupt => (true, none)

/-- `config.TIMEOUT_SECONDS` (src/config.py line 6). -/
def TIMEOUT_SECONDS : Nat := 300

/-- The single-quote character (written by code point to keep source plain). -/
def squoteChar : Char := Char.ofNat 39

/-- The characters `shlex` treats as token separators. -/
def SHLEX_WHITESPACE : List Char := [' ', '\t', '\r', '\n']

/-- Scanner states of `shlex.split` in POSIX mode with whitespace splitting
(the configuration Python `shlex.split` uses): between tokens, inside a
word, inside single/double quotes, and after a backslash outside or inside
double quotes. -/
inductive ShlexState where
  | ws
  | word
  | squote
  | dquote
  | escWord
  | escDquote
deriving DecidableEq, Repr

/-- The state machine of Python `shlex.split(s)` (POSIX rules): whitespace
separates tokens; single quotes protect everything; double quotes protect
everything but backslash-escaped `"` and `\`; a backslash outside quotes
escapes the next character; an unclosed quote raises
`ValueError("No closing quotation")` and a trailing backslash raises
`ValueError("No escaped character")`.  `acc` is the token being built,
`quoted` records whether it contains a quoted section (so a quoted empty
token is still emitted), `toks` the finished tokens. -/
def shlexAux : ShlexState → List Char → Bool → List String → List Char →
    Except String (List String)
  | .ws, _, _, toks, [] => .ok toks
  | .ws, acc, quoted, toks, c :: rest =>
    if SHLEX_WHITESPACE.contains c then shlexAux .ws acc quoted toks rest
    else if c = squoteChar then shlexAux .squote acc true toks rest
    else if c = '"' then shlexAux .dquote acc true toks rest
    else if c = '\\' then shlexAux .escWord acc quoted toks rest
    else shlexAux .word (acc ++ [c]) quoted toks rest
  | .word, acc, quoted, toks, [] =>
    if acc ≠ [] ∨ quoted then .ok (toks ++ [(⟨acc⟩ : String)]) else .ok toks
  | .word, acc, quoted, toks, c :: rest =>
    if SHLEX_WHITESPACE.contains c then
      if acc ≠ [] ∨ quoted then shlexAux .ws [] false (toks ++ [(⟨acc⟩ : String)]) rest
      else shlexAux .ws [] false toks rest
    else if c = squoteChar then shlexAux .squote acc true toks rest
    else if c = '"' then shlexAux .dquote acc true toks rest
    else if c = '\\' then shlexAux .escWord acc quoted toks rest
    else shlexAux .word (acc ++ [c]) quoted toks rest
  | .squote, _, _, _, [] => .error "No closing quotation"
  | .squote, acc, quoted, toks, c :: rest =>
    if c = squoteChar then shlexAux .word acc quoted toks rest
    else shlexAux .squote (acc ++ [c]) quoted toks rest
  | .dquote, _, _, _, [] => .error "No closing quotation"
  | .dquote, acc, quoted, toks, c :: rest =>
    if c = '"' then shlexAux .word acc quoted toks rest
    else if c = '\\' then shlexAux .escDquote acc quoted toks rest
    else shlexAux .dquote (acc ++ [c]) quoted toks rest
  | .escWord, _, _, _, [] => .error "No escaped character"
  | .escWord, acc, quoted, toks, c :: rest => shlexAux .word (acc ++ [c]) quoted toks rest
  | .escDquote, _, _, _, [] => .error "No escaped character"
  | .escDquote, acc, quoted, toks, c :: rest =>
    if c ≠ '"' ∧ c ≠ '\\' then shlexAux .dquote (acc ++ ['\\', c]) quoted toks rest
    else shlexAux .dquote (acc ++ [c]) quoted toks rest

/-- Python `shlex.split(s)`: the token list, or the `ValueError` message. -/
def shlex_split (s : String) : Except String (List String) :=
  shlexAux .ws [] false [] s.toList

/-- What `subprocess.run(command_parts, check=True, timeout=...)` can do:
exit 0, exit nonzero (`CalledProcessError`, carrying captured output),
exceed the timeout (`TimeoutExpired`), or raise some other `OSError`-like
exception whose `str` is `msg` (e.g. `FileNotFoundError`). -/
inductive ProcResult where
  | completed (stdout stderr : String)
  | calledProcessError (stdout stderr : String)
  | timeoutExpired
  | oserror (msg : String)
deriving DecidableEq, Repr

/-- `KaiaCLI.execute_command` (src/kaia_cli.py lines 387-409).  `home`
stands for `os.path.expanduser("~")` and `user` for `os.getenv('USER', '')`;
`run` is the child-process semantics, which receives the `shlex`-tokenized
argument list (`subprocess.run(command_parts, ...)` — never a shell).
Every failure, including a tokenization `ValueError`, is returned as a
`(False, stdout, stderr)` triple through the `except` clauses. -/
def execute_command (command : String) (home user : String)
    (run : List String → ProcResult) : Bool × String × String :=
  match shlex_split (pyReplace (pyReplace (pyReplace command "~" home) "$HOME" home) "$USER" user) with
  | .error e => (false, "", e)
  | .ok command_parts =>
    match run command_parts with
    | .completed out err => (true, pyStrip out, pyStrip err)
    | .calledProcessError out err => (false, pyStrip out, pyStrip err)
    | .timeoutExpired =>
      (false, "", "Command timed out after " ++ toString TIMEOUT_SECONDS ++ " seconds.")
    | .oserror msg => (false, "", msg)

/-!  Theorems settling the claims.  -/

/-- C1, counterexample: the claim says every command containing `;` (among
other operators) is rejected by `generate_command` regardless of an
allow-listed prefix; but `"ls ; rm -rf /"` contains `;`, starts with the
allow-listed `ls`, and the gate returns it with no error because the
allow-list check precedes the operator scan. -/
theorem C1_counterexample :
    pyContains "ls ; rm -rf /" ";" = true ∧
    generate_command_gate "ls ; rm -rf /" = ("ls ; rm -rf /", none) :=
  ⟨rfl, rfl⟩

/-- C1, amended: `confirm_and_execute_command` does refuse every command
containing a blocked operator (`;`, `&&`, `||`, backtick, `$(`, `>`, `<`,
`|`), independently of the user's confirmation and of the process
semantics, so such a command is never executed; `generate_command`'s gate
rejects on its operator list (`&&`, `;`, `||`, backtick, newline — not
`$(` or `|`) only when the cleaned command does not start with an
allow-listed program name. -/
theorem C1_amended :
    (∀ (c choice : String) (run : String → String × String),
      BLOCKED_OPERATORS.any (fun b => pyContains c b) = true →
      confirm_and_execute_command c choice run =
        (false, "Dangerous command detected - aborting.")) ∧
    (∀ c : String,
      SAFE_COMMAND_ALLOWLIST.any (fun cmd => pyStartsWith c cmd) = false →
      UNSAFE_OPERATORS.any (fun op => pyContains c op) = true →
      generate_command_gate c =
        ("", some "ERROR: Generated command contained unsafe operators.")) := by
  constructor
  · intro c choice run h
    unfold confirm_and_execute_command
    rw [h]
    rfl
  · intro c h1 h2
    unfold generate_command_gate
    rw [h1, h2]
    rfl

/-- C1, witness: the amended theorem applied to the blocked command
`"ls ; rm -rf /"` (confirmation granted, process semantics arbitrary) and
to the non-allow-listed `"evil ; x"`. -/
theorem C1_amended_witness :
    confirm_and_execute_command "ls ; rm -rf /" "y" (fun _ => ("out", "err")) =
      (false, "Dangerous command detected - aborting.") ∧
    generate_command_gate "evil ; x" =
      ("", some "ERROR: Generated command contained unsafe operators.") :=
  ⟨C1_amended.1 "ls ; rm -rf /" "y" (fun _ => ("out", "err")) (by decide),
   C1_amended.2 "evil ; x" (by decide) (by decide)⟩

/-- C2, counterexample: when the backend's response body parses as JSON that
is not a mapping (here `[]`) or as a mapping lacking an `action` key,
`generate_action_plan` returns that value unvalidated, so the result is not
a valid ActionPlan, contradicting the claim. -/
theorem C2_counterexample :
    generate_action_plan (.ok (.arr [])) "hello" = .arr [] ∧
    isValidActionPlan (.arr []) = false ∧
    generate_action_plan (.ok (.obj [("foo", .num 1)])) "hello" = .obj [("foo", .num 1)] ∧
    isValidActionPlan (.obj [("foo", .num 1)]) = false :=
  ⟨rfl, rfl, rfl, rfl⟩

/-- C2, amended: `generate_action_plan` never raises (it is total) and on
every exception in its try block returns a mapping whose `action` key is a
known tag; but when the response body parses as JSON the parsed value is
returned as-is with no shape validation, so a non-mapping or a mapping
without `action` propagates to the caller. -/
theorem C2_amended :
    (∀ (e s : String), isValidActionPlan (generate_action_plan (.error e) s) = true) ∧
    (∀ (j : Json) (s : String), generate_action_plan (.ok j) s = j) := by
  constructor
  · intro e s
    show isValidActionPlan (fallback_action_plan s) = true
    unfold fallback_action_plan
    split
    · rfl
    · split
      · rfl
      · split
        · rfl
        · rfl
  · intro j s
    rfl

/-- C3, counterexample: the claim says the fallback classifier sends inputs
containing "explain" to `knowledge_query` (first keyword set); on
`"explain recursion"` the code's fallback returns action `chat`, while the
spec's claimed classifier returns `knowledge_query`. -/
theorem C3_counterexample :
    generate_action_plan (.error "connection refused") "explain recursion" =
      .obj [("action", .str "chat"), ("content", .str "explain recursion")] ∧
    spec_fallback_action "explain recursion" = "knowledge_query" :=
  ⟨rfl, rfl⟩

/-- C3, amended: the fallback classifier evaluates the lower-cased
utterance against ordered keyword sets with first match winning, in this
order: command keywords (`list`, `find`, `search`, `show files`,
`check processes`, `disk usage`, `memory usage`, `cpu usage`, `gpu usage`)
first; then store_data keywords (`remember`, `my name is`, `i like`); then
chat keywords (`what is`, `who is`, `tell me about`) mapping to chat;
otherwise chat — always with content set to the original utterance.  There
is no knowledge_query / retrieve_data / system_status / run_script
fallback. -/
theorem C3_amended : ∀ (e s : String),
    (COMMAND_FALLBACK_KEYWORDS.any (fun k => pyContains (pyLower s) k) = true →
      generate_action_plan (.error e) s =
        .obj [("action", .str "command"), ("content", .str s)]) ∧
    (COMMAND_FALLBACK_KEYWORDS.any (fun k => pyContains (pyLower s) k) = false →
      STORE_FALLBACK_KEYWORDS.any (fun k => pyContains (pyLower s) k) = true →
      generate_action_plan (.error e) s =
        .obj [("action", .str "store_data"), ("content", .str s)]) ∧
    (COMMAND_FALLBACK_KEYWORDS.any (fun k => pyContains (pyLower s) k) = false →
      STORE_FALLBACK_KEYWORDS.any (fun k => pyContains (pyLower s) k) = false →
      generate_action_plan (.error e) s =
        .obj [("action", .str "chat"), ("content", .str s)]) := by
  intro e s
  refine ⟨?_, ?_, ?_⟩
  · intro h1
    show fallback_action_plan s = _
    unfold fallback_action_plan
    rw [h1]
    rfl
  · intro h1 h2
    show fallback_action_plan s = _
    unfold fallback_action_plan
    rw [h1, h2]
    rfl
  · intro h1 h2
    show fallback_action_plan s = _
    unfold fallback_action_plan
    simp [h1, h2]

/-- C3, witness: the amended theorem applied to `"find my files"`
(command keyword), `"remember me"` (store keyword, no command keyword) and
`"hello there"` (no keyword, chat default), with the backend failing. -/
theorem C3_amended_witness :
    generate_action_plan (.error "down") "find my files" =
      .obj [("action", .str "command"), ("content", .str "find my files")] ∧
    generate_action_plan (.error "down") "remember me" =
      .obj [("action", .str "store_data"), ("content", .str "remember me")] ∧
    generate_action_plan (.error "down") "hello there" =
      .obj [("action", .str "chat"), ("content", .str "hello there")] :=
  ⟨(C3_amended "down" "find my files").1 (by decide),
   (C3_amended "down" "remember me").2.1 (by decide) (by decide),
   (C3_amended "down" "hello there").2.2 (by decide) (by decide)⟩

/-- C4, counterexample: a planner result with the unrecognized tag
`"bogus"` and content `"other"` is dispatched to the chat handler, but the
payload the handler receives is the plan's content `"other"`, not the
original utterance `"hello"` — contradicting "never to a payload differing
from the utterance". -/
theorem C4_counterexample :
    dispatch_turn [("action", .str "bogus"), ("content", .str "other")] "hello" true =
      (.chat, .str "other") ∧
    Json.str "other" ≠ Json.str "hello" := by
  constructor
  · rfl
  · intro h
    exact absurd (Json.str.inj h) (by decide)

/-- C4, amended: for every planner mapping whose `action` value matches
none of the dispatched tags (in particular any unrecognized tag, and the
absent case where it defaults to `"chat"`), the dispatcher runs the chat
handler, with payload the plan's `content` value when present and the
original utterance only otherwise. -/
theorem C4_amended :
    ∀ (plan : List (String × Json)) (query : String) (sqlAvailable : Bool),
      jsonEqStr (plan_action plan) "store_data" = false →
      jsonEqStr (plan_action plan) "command" = false →
      jsonEqStr (plan_action plan) "system_status" = false →
      jsonEqStr (plan_action plan) "sql" = false →
      jsonEqStr (plan_action plan) "retrieve_data" = false →
      jsonEqStr (plan_action plan) "get_persona_content" = false →
      dispatch_turn plan query sqlAvailable = (.chat, plan_content plan query) := by
  intro plan query sqlAvailable h1 h2 h3 h4 h5 h6
  unfold dispatch_turn dispatch_branch
  rw [h1, h2, h3, h4, h5, h6]
  rfl

/-- C4, witness: the amended theorem applied to the plan
`{"action": "bogus", "content": "payload"}` with utterance `"hi"`. -/
theorem C4_amended_witness :
    dispatch_turn [("action", .str "bogus"), ("content", .str "payload")] "hi" true =
      (.chat, .str "payload") :=
  C4_amended [("action", .str "bogus"), ("content", .str "payload")] "hi" true
    rfl rfl rfl rfl rfl rfl

/-- C5: the code evaluated at the claim's own scenario fails it.  The
`ON CONFLICT (user_id, preference_key)` insert has no matching unique
constraint in the `user_preferences` schema, so `set_user_preference`
stores nothing and reports False; `handle_memory_storage` discards that
False and reports the query handled with the database unchanged; the
follow-up retrieval then answers "No preferences are currently stored."
with an empty data list — no entry mentions "blue".  (Independently,
`main` passes a `user_id` argument these one-parameter functions do not
accept, so through the dispatcher both turns raise `TypeError`.) -/
theorem C5_roundtrip_fails :
    set_user_preference "default_user" "favorite_color" "blue" emptyDB = (false, emptyDB) ∧
    handle_memory_storage "my favorite color is blue" emptyDB = .ok (true, emptyDB) ∧
    (handle_data_retrieval "what are my preferences" emptyDB).message =
      "No preferences are currently stored." ∧
    ((handle_data_retrieval "what are my preferences" emptyDB).data.any
      (fun item => retItemMentions item "blue")) = false :=
  ⟨rfl, rfl, rfl, rfl⟩

/-- C6, counterexample: the claim fixes the category set to `about_me`,
`preferences`, `facts`, `history`, `unknown`; but on
`"what do you know about me"` (the spec's own phrase-precedence example,
supposedly `about_me`) the code resolves to `data_retrieval_failed`, which
is none of the five. -/
theorem C6_counterexample :
    (handle_data_retrieval "what do you know about me" emptyDB).response_type =
      "data_retrieval_failed" ∧
    ¬("data_retrieval_failed" ∈
      (["about_me", "preferences", "facts", "history", "unknown"] : List String)) :=
  ⟨rfl, by decide⟩

/-- Helper for C6: every result the persona-keyword loop produces carries
one of the six retrieval response types. -/
theorem personaLoop_response_type_mem (ql : String) (st : DBState) :
    ∀ (l : List (String × String)) (r : RetrievalResult),
      personaLoop ql st l = some r → r.response_type ∈ RETRIEVAL_RESPONSE_TYPES := by
  intro l
  induction l with
  | nil => intro r h; exact absurd h (by simp [personaLoop])
  | cons hd tl ih =>
    obtain ⟨phrase, key⟩ := hd
    intro r h
    unfold personaLoop at h
    split at h
    · split at h
      · split at h
        · injection h with h2
          subst h2
          simp [RETRIEVAL_RESPONSE_TYPES]
        · injection h with h2
          subst h2
          simp [RETRIEVAL_RESPONSE_TYPES]
      · split at h
        · split at h
          · injection h with h2
            subst h2
            simp [RETRIEVAL_RESPONSE_TYPES]
          · injection h with h2
            subst h2
            simp [RETRIEVAL_RESPONSE_TYPES]
        · injection h with h2
          subst h2
          simp [RETRIEVAL_RESPONSE_TYPES]
    · exact ih r h

/-- C6, amended: retrieval resolution is total — for every query string and
database state, `handle_data_retrieval` returns exactly one result, and its
response type is one of the six fixed tags `facts_retrieved`,
`preferences_retrieved`, `persona_details_retrieved`,
`persona_detail_retrieved`, `persona_detail_not_found`,
`data_retrieval_failed`, the last being the default when no phrase
matches. -/
theorem C6_amended :
    ∀ (query : String) (st : DBState),
      (handle_data_retrieval query st).response_type ∈ RETRIEVAL_RESPONSE_TYPES := by
  intro query st
  unfold handle_data_retrieval
  split
  · split
    · simp [RETRIEVAL_RESPONSE_TYPES]
    · simp [RETRIEVAL_RESPONSE_TYPES]
  · split
    · split
      · simp [RETRIEVAL_RESPONSE_TYPES]
      · simp [RETRIEVAL_RESPONSE_TYPES]
    · split
      · rename_i r hr
        exact personaLoop_response_type_mem (pyLower query) st PERSONA_DETAIL_KEYWORDS r hr
      · simp [RETRIEVAL_RESPONSE_TYPES]

/-- C7: the main loop's exception boundary — any exception raised by the
turn body is caught, converted into a `system_error` response whose logged
message is `"System error: "` followed by the first 200 characters of the
exception text, handed to the logging collaborator, and the loop continues
(`break` is never taken on that path); conversely the loop terminates only
when the stripped query lower-cases to `exit`/`quit` or a
`KeyboardInterrupt` arrives. -/
theorem C7_exception_boundary :
    (∀ (uid q msg : String),
      (pyLower (pyStrip q) == "exit" || pyLower (pyStrip q) == "quit") = false →
      (pyStrip q == "") = false →
      main_loop_step uid q (.exc msg) =
        (false, some ⟨uid, pyStrip q,
          "System error: " ++ (⟨msg.toList.take 200⟩ : String), "system_error"⟩)) ∧
    (∀ (uid q : String) (body : TurnBody),
      (main_loop_step uid q body).1 = true →
      pyLower (pyStrip q) = "exit" ∨ pyLower (pyStrip q) = "quit" ∨ body = .interrupt) := by
  constructor
  · intro uid q msg h1 h2
    simp [main_loop_step, h1, h2]
  · intro uid q body h
    unfold main_loop_step at h
    by_cases h1 : (pyLower (pyStrip q) == "exit" || pyLower (pyStrip q) == "quit") = true
    · rcases Bool.or_eq_true_iff.mp h1 with h' | h'
      · exact Or.inl (eq_of_beq h')
      · exact Or.inr (Or.inl (eq_of_beq h'))
    · simp only [Bool.not_eq_true] at h1
      simp only [h1, Bool.false_eq_true, if_false] at h
      by_cases h2 : (pyStrip q == "") = true
      · simp [h2] at h
      · simp only [Bool.not_eq_true] at h2
        simp only [h2, Bool.false_eq_true, if_false] at h
        cases body with
        | ok resp rtype => simp at h
        | exc m => simp at h
        | interrupt => exact Or.inr (Or.inr rfl)

/-- C7, witness: the boundary theorem applied to a concrete failing turn
(`" boom "` with a `ValueError`) and to a concrete terminating turn (the
`exit` token). -/
theorem C7_exception_boundary_witness :
    main_loop_step "default_user" " boom " (.exc "ValueError: bad") =
      (false, some ⟨"default_user", "boom", "System error: ValueError: bad",
        "system_error"⟩) ∧
    (pyLower (pyStrip " EXIT ") = "exit" ∨ pyLower (pyStrip " EXIT ") = "quit" ∨
      TurnBody.ok "r" "t" = TurnBody.interrupt) :=
  ⟨C7_exception_boundary.1 "default_user" " boom " "ValueError: bad" (by decide) (by decide),
   C7_exception_boundary.2 " EXIT " " EXIT " (.ok "r" "t") (by decide)⟩

/-- C8: with the LLM backend unreachable (every request raises), the action
plan for a fixed input string is the same on any two runs, whatever the two
exception messages were: the fallback is a pure function of the input and
the fixed keyword tables. -/
theorem C8_fallback_deterministic :
    ∀ (s e₁ e₂ : String),
      generate_action_plan (.error e₁) s = generate_action_plan (.error e₂) s :=
  fun _ _ _ => rfl

/-- C9: whenever the child process exceeds the timeout
(`subprocess.TimeoutExpired`), `execute_command` returns the failure triple
`(False, "", "Command timed out after 300 seconds.")` — naming
`config.TIMEOUT_SECONDS = 300` — instead of raising. -/
theorem C9_timeout_is_failure :
    ∀ (command home user : String) (run : List String → ProcResult)
      (parts : List String),
      shlex_split (pyReplace (pyReplace (pyReplace command "~" home) "$HOME" home)
        "$USER" user) = .ok parts →
      run parts = .timeoutExpired →
      execute_command command home user run =
        (false, "", "Command timed out after " ++ toString TIMEOUT_SECONDS ++ " seconds.") := by
  intro command home user run parts h1 h2
  simp [execute_command, h1, h2]

/-- C9, witness: the timeout theorem applied to `"sleep 1000"` with a
runner whose child process always times out. -/
theorem C9_timeout_is_failure_witness :
    execute_command "sleep 1000" "/home/u" "u" (fun _ => .timeoutExpired) =
      (false, "", "Command timed out after 300 seconds.") :=
  C9_timeout_is_failure "sleep 1000" "/home/u" "u" (fun _ => .timeoutExpired)
    ["sleep", "1000"] rfl rfl

/-- C10: `execute_command` never hands the command string to a shell: after
the textual `~`/`$HOME`/`$USER` substitution it tokenizes with
`shlex.split` and passes the resulting argument list directly to the child
process — so its result is entirely determined by the process semantics on
that list, shell metacharacters like `;`, `&&`, `|` surviving as literal
arguments (third conjunct); and every failure, including a tokenization
error, comes back as a `(False, stdout, stderr)` triple (first conjunct),
never as an exception. -/
theorem C10_no_shell :
    (∀ (command home user : String) (run : List String → ProcResult) (e : String),
      shlex_split (pyReplace (pyReplace (pyReplace command "~" home) "$HOME" home)
        "$USER" user) = .error e →
      execute_command command home user run = (false, "", e)) ∧
    (∀ (command home user : String) (run : List String → ProcResult)
      (parts : List String),
      shlex_split (pyReplace (pyReplace (pyReplace command "~" home) "$HOME" home)
        "$USER" user) = .ok parts →
      execute_command command home user run =
        (match run parts with
         | .completed out err => (true, pyStrip out, pyStrip err)
         | .calledProcessError out err => (false, pyStrip out, pyStrip err)
         | .timeoutExpired =>
           (false, "", "Command timed out after " ++ toString TIMEOUT_SECONDS ++ " seconds.")
         | .oserror msg => (false, "", msg))) ∧
    shlex_split "echo hi ; rm -rf / && x | y" =
      .ok ["echo", "hi", ";", "rm", "-rf", "/", "&&", "x", "|", "y"] := by
  refine ⟨?_, ?_, rfl⟩
  · intro command home user run e h
    simp [execute_command, h]
  · intro command home user run parts h
    simp [execute_command, h]

/-- C10, witness: the theorem applied to a command with an unclosed quote
(tokenization failure returned as a triple) and to a metacharacter-laden
command with a runner that reports the argument list it received — the
reported list shows `;`, `&&`, `|` arriving as literal arguments. -/
theorem C10_no_shell_witness :
    execute_command "echo \"unclosed" "/home/u" "u" (fun _ => .completed "x" "y") =
      (false, "", "No closing quotation") ∧
    execute_command "echo hi ; rm -rf / && x | y" "/home/u" "u"
      (fun ps => .oserror (String.intercalate "," ps)) =
      (false, "", "echo,hi,;,rm,-rf,/,&&,x,|,y") :=
  ⟨C10_no_shell.1 "echo \"unclosed" "/home/u" "u" (fun _ => .completed "x" "y")
      "No closing quotation" rfl,
   C10_no_shell.2.1 "echo hi ; rm -rf / && x | y" "/home/u" "u"
      (fun ps => .oserror (String.intercalate "," ps))
      ["echo", "hi", ";", "rm", "-rf", "/", "&&", "x", "|", "y"] rfl⟩

end KaiaSpec
